import Mathlib

/-!
Verification of the approval-workflow core of the campus management
backend (`accounts/views.py`, `accounts/models.py`): room-booking
creation with clash detection, coordinator and HOD booking decisions,
and student-leave creation and decision.

Dates are modelled as natural numbers (day ordinals), times of day as
natural numbers (minutes since midnight); both are only ever compared
with `<` / `≤` in the source, so any linearly ordered encoding is
faithful.  The persistent store is an explicit `DB` value threaded
through each operation; an operation that fails returns
`Except.error` and, by construction, no new store — mirroring the
source, where every error response is produced before any `save()`.
-/

namespace Campus

/-- `User.role` in `accounts/models.py` (`ROLE_CHOICES`). -/
inductive Role
  | admin
  | teacher
  | student
deriving DecidableEq, Repr

/-- `Division` model: a (course, semester, section-letter) triple. -/
structure Division where
  course : String
  semester : Nat
  division : String
deriving DecidableEq, Repr

/-- `Teacher` model fields used by the workflow core: the batch
coordinator scope triple and the HOD course. -/
structure TeacherProfile where
  is_batch_coordinator : Bool
  coordinator_course : Option String
  coordinator_semester : Option Nat
  coordinator_division : Option String
  is_hod : Bool
  hod_course : Option String
deriving DecidableEq, Repr

/-- A user together with the profile data the workflow endpoints read:
`user.teacher_profile` for teachers and `user.student_profile.division`
for students. -/
structure User where
  id : Nat
  role : Role
  teacher_profile : Option TeacherProfile
  student_division : Option Division
deriving DecidableEq, Repr

/-- `RoomBooking.STATUS_CHOICES`. -/
inductive BookingStatus
  | PENDING_COORDINATOR
  | PENDING_HOD
  | APPROVED
  | REJECTED
deriving DecidableEq, Repr

/-- `RoomBooking` model (workflow-relevant fields). -/
structure RoomBooking where
  id : Nat
  room : Nat
  requested_by : Nat
  division : Option Division
  purpose : String
  booking_date : Nat
  start_time : Nat
  end_time : Nat
  status : BookingStatus
  coordinator_approved : Bool
  hod_approved : Bool
deriving DecidableEq, Repr

/-- `StudentLeave.STATUS_CHOICES`. -/
inductive LeaveStatus
  | PENDING
  | APPROVED
  | REJECTED
deriving DecidableEq, Repr

/-- `StudentLeave` model (workflow-relevant fields). -/
structure StudentLeave where
  id : Nat
  student : Nat
  division : Division
  reason : String
  from_date : Nat
  to_date : Nat
  document : Option String
  status : LeaveStatus
  coordinator_remark : Option String
  decision_at : Option Nat
deriving DecidableEq, Repr

/-- The persistent store: rooms (by id), bookings, leaves, and the
auto-increment counters for primary keys. -/
structure DB where
  rooms : List Nat
  bookings : List RoomBooking
  leaves : List StudentLeave
  next_booking_id : Nat
  next_leave_id : Nat
deriving DecidableEq, Repr

/-- Error taxonomy of the error responses in `views.py`, named per the
spec: 404 for a missing row is `NotFound`, a failed role/authority
check (`"Unauthorized"`, `"Only HOD allowed"`, `"Invalid role"`,
`"Only students can apply leave"`) is `Authorization`, the clash 400
is `Conflict`, `"Invalid action"` is `InvalidAction`, and a
`full_clean` failure is `ValidationError`.  `InvalidTransition` is
included because the spec names it; the source never produces it. -/
inductive Err
  | NotFound
  | Authorization
  | Conflict
  | InvalidAction
  | ValidationError
  | InvalidTransition
deriving DecidableEq, Repr

/-- `user.role == 'teacher' and user.teacher_profile.is_batch_coordinator`. -/
def isBatchCoordinator (u : User) : Bool :=
  match u.teacher_profile with
  | some t => t.is_batch_coordinator
  | none => false

/-- `user.teacher_profile.is_hod`. -/
def isHod (u : User) : Bool :=
  match u.teacher_profile with
  | some t => t.is_hod
  | none => false

/-- The clash filter in `request_room` (`views.py` lines 379–385):
`RoomBooking.objects.filter(room=room, booking_date=booking_date,
status="APPROVED", start_time__lt=end_time, end_time__gt=start_time)
.exists()`. -/
def hasClash (bookings : List RoomBooking) (room date s e : Nat) : Bool :=
  bookings.any fun b =>
    b.room == room && b.booking_date == date &&
    b.status == BookingStatus.APPROVED &&
    decide (b.start_time < e) && decide (s < b.end_time)

/-- `RoomBooking.objects.get(id=booking_id)`: first row with the id. -/
def findBooking (db : DB) (bid : Nat) : Option RoomBooking :=
  db.bookings.find? fun b => b.id == bid

/-- `booking.save()` after mutating the fetched row: replace the rows
carrying this id (primary keys are unique, so at most one). -/
def updateBooking (db : DB) (bid : Nat) (nb : RoomBooking) : DB :=
  { db with bookings := db.bookings.map fun x => if x.id == bid then nb else x }

/-- `StudentLeave.objects.get(id=leave_id)`. -/
def findLeave (db : DB) (lid : Nat) : Option StudentLeave :=
  db.leaves.find? fun l => l.id == lid

/-- `leave.save()` after mutating the fetched row. -/
def updateLeave (db : DB) (lid : Nat) (nl : StudentLeave) : DB :=
  { db with leaves := db.leaves.map fun x => if x.id == lid then nl else x }

/-- `request_room` (`views.py` lines 366–442).  Order as in the
source: fetch the room (404 on miss), run the clash check against
APPROVED bookings, then dispatch on the requester's role; a student
row stores the student's own division and starts PENDING_COORDINATOR,
a teacher row stores no division and starts PENDING_HOD, any other
role is rejected (`"Invalid role"`).  A student user without a
student profile makes the handler fall into the generic
`except Exception` 400 branch, modelled as `ValidationError`. -/
def request_room (db : DB) (u : User) (room_id : Nat) (purpose : String)
    (date s e : Nat) : Except Err DB :=
  if db.rooms.contains room_id then
    if hasClash db.bookings room_id date s e then
      Except.error Err.Conflict
    else
      match u.role with
      | Role.student =>
        match u.student_division with
        | some dv =>
          Except.ok { db with
            bookings := db.bookings ++
              [{ id := db.next_booking_id, room := room_id,
                 requested_by := u.id, division := some dv,
                 purpose := purpose, booking_date := date,
                 start_time := s, end_time := e,
                 status := BookingStatus.PENDING_COORDINATOR,
                 coordinator_approved := false, hod_approved := false }],
            next_booking_id := db.next_booking_id + 1 }
        | none => Except.error Err.ValidationError
      | Role.teacher =>
        Except.ok { db with
          bookings := db.bookings ++
            [{ id := db.next_booking_id, room := room_id,
               requested_by := u.id, division := none,
               purpose := purpose, booking_date := date,
               start_time := s, end_time := e,
               status := BookingStatus.PENDING_HOD,
               coordinator_approved := false, hod_approved := false }],
          next_booking_id := db.next_booking_id + 1 }
      | Role.admin => Except.error Err.Authorization
  else
    Except.error Err.NotFound

/-- `coordinator_action` (`views.py` lines 566–590).  Guard: role is
teacher and `is_batch_coordinator`; then fetch the booking (404 on
miss) and branch on the action string.  The source consults neither
the booking's current status nor the coordinator's scope triple. -/
def coordinator_action (db : DB) (u : User) (booking_id : Nat)
    (action : String) : Except Err DB :=
  if u.role == Role.teacher && isBatchCoordinator u then
    match findBooking db booking_id with
    | none => Except.error Err.NotFound
    | some b =>
      if action == "approve" then
        Except.ok (updateBooking db booking_id
          { b with status := BookingStatus.PENDING_HOD,
                   coordinator_approved := true })
      else if action == "reject" then
        Except.ok (updateBooking db booking_id
          { b with status := BookingStatus.REJECTED })
      else
        Except.error Err.InvalidAction
  else
    Except.error Err.Authorization

/-- `hod_action` (`views.py` lines 638–662).  Guard: role is teacher
and `is_hod`; then fetch the booking and branch on the action string.
The source consults neither the booking's current status nor the
HOD's course. -/
def hod_action (db : DB) (u : User) (booking_id : Nat)
    (action : String) : Except Err DB :=
  if u.role == Role.teacher && isHod u then
    match findBooking db booking_id with
    | none => Except.error Err.NotFound
    | some b =>
      if action == "approve" then
        Except.ok (updateBooking db booking_id
          { b with status := BookingStatus.APPROVED,
                   hod_approved := true })
      else if action == "reject" then
        Except.ok (updateBooking db booking_id
          { b with status := BookingStatus.REJECTED })
      else
        Except.error Err.InvalidAction
  else
    Except.error Err.Authorization

/-- `apply_leave` (`views.py` lines 702–732).  Guard: role is student;
the leave row is built from the student's current division and
`full_clean` runs `StudentLeave.clean` (`models.py` lines 360–362),
which raises when `to_date < from_date`; only then is the row saved
with the default status PENDING. -/
def apply_leave (db : DB) (u : User) (reason : String)
    (from_date to_date : Nat) (document : Option String) : Except Err DB :=
  if u.role == Role.student then
    match u.student_division with
    | some dv =>
      if to_date < from_date then
        Except.error Err.ValidationError
      else
        Except.ok { db with
          leaves := db.leaves ++
            [{ id := db.next_leave_id, student := u.id, division := dv,
               reason := reason, from_date := from_date, to_date := to_date,
               document := document, status := LeaveStatus.PENDING,
               coordinator_remark := none, decision_at := none }],
          next_leave_id := db.next_leave_id + 1 }
    | none => Except.error Err.ValidationError
  else
    Except.error Err.Authorization

/-- `coordinator_leave_action` (`views.py` lines 793–820).  Guard:
role is teacher and `is_batch_coordinator`; fetch the leave, branch on
the action string, and on approve/reject set the status and then, in
both branches, `coordinator_remark = remark` and `decision_at = now()`.
The source consults neither the leave's current status nor the
coordinator's scope triple.  The clock is passed in explicitly. -/
def coordinator_leave_action (db : DB) (u : User) (leave_id : Nat)
    (action remark : String) (now : Nat) : Except Err DB :=
  if u.role == Role.teacher && isBatchCoordinator u then
    match findLeave db leave_id with
    | none => Except.error Err.NotFound
    | some l =>
      if action == "approve" then
        Except.ok (updateLeave db leave_id
          { l with status := LeaveStatus.APPROVED,
                   coordinator_remark := some remark,
                   decision_at := some now })
      else if action == "reject" then
        Except.ok (updateLeave db leave_id
          { l with status := LeaveStatus.REJECTED,
                   coordinator_remark := some remark,
                   decision_at := some now })
      else
        Except.error Err.InvalidAction
  else
    Except.error Err.Authorization

/-! ### Concrete fixtures used by witnesses and counterexamples -/

/-- Division (MCA, Sem 1, A). -/
def divA : Division := { course := "MCA", semester := 1, division := "A" }

/-- Division (MCA, Sem 1, B). -/
def divB : Division := { course := "MCA", semester := 1, division := "B" }

/-- A teacher profile with no coordinator or HOD authority. -/
def plainTeacher : TeacherProfile :=
  { is_batch_coordinator := false, coordinator_course := none,
    coordinator_semester := none, coordinator_division := none,
    is_hod := false, hod_course := none }

/-- A teacher user with no special authority. -/
def uTeacher : User :=
  { id := 10, role := Role.teacher, teacher_profile := some plainTeacher,
    student_division := none }

/-- A student user in division (MCA, 1, A). -/
def uStudentA : User :=
  { id := 11, role := Role.student, teacher_profile := none,
    student_division := some divA }

/-- An admin user (role neither student nor teacher). -/
def uAdmin : User :=
  { id := 12, role := Role.admin, teacher_profile := none,
    student_division := none }

/-- A batch coordinator scoped to (MCA, 1, A). -/
def uCoordA : User :=
  { id := 13, role := Role.teacher,
    teacher_profile := some
      { is_batch_coordinator := true, coordinator_course := some "MCA",
        coordinator_semester := some 1, coordinator_division := some "A",
        is_hod := false, hod_course := none },
    student_division := none }

/-- An HOD of course MMS. -/
def uHodMMS : User :=
  { id := 14, role := Role.teacher,
    teacher_profile := some
      { is_batch_coordinator := false, coordinator_course := none,
        coordinator_semester := none, coordinator_division := none,
        is_hod := true, hod_course := some "MMS" },
    student_division := none }

/-- An HOD of course MCA. -/
def uHodMCA : User :=
  { id := 15, role := Role.teacher,
    teacher_profile := some
      { is_batch_coordinator := false, coordinator_course := none,
        coordinator_semester := none, coordinator_division := none,
        is_hod := true, hod_course := some "MCA" },
    student_division := none }

/-- An APPROVED booking of room 1 on day 5, 10:00–11:00 (minutes 600–660). -/
def bApproved : RoomBooking :=
  { id := 0, room := 1, requested_by := 10, division := none,
    purpose := "seminar", booking_date := 5, start_time := 600,
    end_time := 660, status := BookingStatus.APPROVED,
    coordinator_approved := true, hod_approved := true }

/-- Store holding room 1 and the approved 10:00–11:00 booking. -/
def dbClash : DB :=
  { rooms := [1], bookings := [bApproved], leaves := [],
    next_booking_id := 1, next_leave_id := 0 }

/-- A booking of division (MCA,1,B) awaiting the coordinator. -/
def bPendingB : RoomBooking :=
  { id := 0, room := 1, requested_by := 11, division := some divB,
    purpose := "t", booking_date := 5, start_time := 600, end_time := 660,
    status := BookingStatus.PENDING_COORDINATOR,
    coordinator_approved := false, hod_approved := false }

/-- Store holding only `bPendingB`. -/
def dbPendingB : DB :=
  { rooms := [1], bookings := [bPendingB], leaves := [],
    next_booking_id := 1, next_leave_id := 0 }

/-- A student booking of division (MCA,1,A) awaiting the HOD. -/
def bPendingHodA : RoomBooking :=
  { id := 0, room := 1, requested_by := 11, division := some divA,
    purpose := "t", booking_date := 5, start_time := 600, end_time := 660,
    status := BookingStatus.PENDING_HOD,
    coordinator_approved := true, hod_approved := false }

/-- Store holding only `bPendingHodA`. -/
def dbPendingHodA : DB :=
  { rooms := [1], bookings := [bPendingHodA], leaves := [],
    next_booking_id := 1, next_leave_id := 0 }

/-- A leave already decided: APPROVED, remark "ok", decided at time 100. -/
def lDecided : StudentLeave :=
  { id := 0, student := 11, division := divA, reason := "sick",
    from_date := 8, to_date := 10, document := none,
    status := LeaveStatus.APPROVED, coordinator_remark := some "ok",
    decision_at := some 100 }

/-- Store holding only the decided leave. -/
def dbLeaveDecided : DB :=
  { rooms := [], bookings := [], leaves := [lDecided],
    next_booking_id := 0, next_leave_id := 1 }

/-- An empty store with a single room, used for the double-booking
trace. -/
def c9Db0 : DB :=
  { rooms := [1], bookings := [], leaves := [],
    next_booking_id := 0, next_leave_id := 0 }

/-- Positional flag monotonicity between two booking tables: a row
present before and after the step never has `coordinator_approved` or
`hod_approved` reset from true, and a row that is new in the step has
both flags false. -/
def flagsMonotone (l l2 : List RoomBooking) : Prop :=
  (∀ i : Nat, ∀ b b2 : RoomBooking, l[i]? = some b → l2[i]? = some b2 →
    (b.coordinator_approved = true → b2.coordinator_approved = true) ∧
    (b.hod_approved = true → b2.hod_approved = true)) ∧
  (∀ i : Nat, ∀ b2 : RoomBooking, l[i]? = none → l2[i]? = some b2 →
    b2.coordinator_approved = false ∧ b2.hod_approved = false)

/-! ### Lemmas -/

/-- The clash filter is exactly the half-open overlap test against
APPROVED bookings of the same room and date. -/
theorem hasClash_iff (bs : List RoomBooking) (rid d s e : Nat) :
    hasClash bs rid d s e = true ↔
      ∃ b ∈ bs, b.room = rid ∧ b.booking_date = d ∧
        b.status = BookingStatus.APPROVED ∧ s < b.end_time ∧ b.start_time < e := by
  simp only [hasClash, List.any_eq_true, Bool.and_eq_true, beq_iff_eq,
    decide_eq_true_eq]
  constructor
  · rintro ⟨b, hb, ⟨⟨⟨h1, h2⟩, h3⟩, h4⟩, h5⟩
    exact ⟨b, hb, h1, h2, h3, h5, h4⟩
  · rintro ⟨b, hb, h1, h2, h3, h4, h5⟩
    exact ⟨b, hb, ⟨⟨⟨h1, h2⟩, h3⟩, h5⟩, h4⟩

/-- Shape of every successful `request_room`: exactly one booking is
appended, flags false, status and division determined by the
requester's role. -/
theorem request_room_ok_spec (db db2 : DB) (u : User) (rid : Nat)
    (p : String) (d s e : Nat)
    (h : request_room db u rid p d s e = Except.ok db2) :
    ∃ nb, db2.bookings = db.bookings ++ [nb] ∧
      nb.coordinator_approved = false ∧ nb.hod_approved = false ∧
      ((u.role = Role.teacher ∧ nb.status = BookingStatus.PENDING_HOD ∧
          nb.division = none) ∨
       (u.role = Role.student ∧ nb.status = BookingStatus.PENDING_COORDINATOR ∧
          nb.division = u.student_division)) := by
  unfold request_room at h
  by_cases hr : db.rooms.contains rid = true
  · rw [if_pos hr] at h
    by_cases hc : hasClash db.bookings rid d s e = true
    · rw [if_pos hc] at h; simp at h
    · rw [if_neg hc] at h
      cases hrole : u.role
      · rw [hrole] at h; simp at h
      · rw [hrole] at h
        simp only [Except.ok.injEq] at h
        subst h
        exact ⟨_, rfl, rfl, rfl, Or.inl ⟨rfl, rfl, rfl⟩⟩
      · rw [hrole] at h
        cases hsd : u.student_division with
        | none => rw [hsd] at h; simp at h
        | some dv =>
          rw [hsd] at h
          simp only [Except.ok.injEq] at h
          subst h
          exact ⟨_, rfl, rfl, rfl, Or.inr ⟨rfl, rfl, rfl⟩⟩
  · rw [if_neg hr] at h; simp at h

/-- Shape of every successful `coordinator_action`: the fetched
booking is rewritten either to PENDING_HOD with
`coordinator_approved := true` or to REJECTED. -/
theorem coordinator_action_ok_shape (db db2 : DB) (u : User) (bid : Nat)
    (a : String) (h : coordinator_action db u bid a = Except.ok db2) :
    ∃ b, findBooking db bid = some b ∧
      (db2 = updateBooking db bid { b with
          status := BookingStatus.PENDING_HOD, coordinator_approved := true } ∨
       db2 = updateBooking db bid { b with status := BookingStatus.REJECTED }) := by
  unfold coordinator_action at h
  split at h
  · split at h
    next => simp at h
    next b heq =>
      split at h
      next => exact ⟨b, heq, Or.inl (Except.ok.inj h).symm⟩
      next =>
        split at h
        next => exact ⟨b, heq, Or.inr (Except.ok.inj h).symm⟩
        next => simp at h
  · simp at h

/-- Shape of every successful `hod_action`: the fetched booking is
rewritten either to APPROVED with `hod_approved := true` or to
REJECTED. -/
theorem hod_action_ok_shape (db db2 : DB) (u : User) (bid : Nat)
    (a : String) (h : hod_action db u bid a = Except.ok db2) :
    ∃ b, findBooking db bid = some b ∧
      (db2 = updateBooking db bid { b with
          status := BookingStatus.APPROVED, hod_approved := true } ∨
       db2 = updateBooking db bid { b with status := BookingStatus.REJECTED }) := by
  unfold hod_action at h
  split at h
  · split at h
    next => simp at h
    next b heq =>
      split at h
      next => exact ⟨b, heq, Or.inl (Except.ok.inj h).symm⟩
      next =>
        split at h
        next => exact ⟨b, heq, Or.inr (Except.ok.inj h).symm⟩
        next => simp at h
  · simp at h

/-- A successful `apply_leave` leaves the booking table untouched. -/
theorem apply_leave_ok_bookings (db db2 : DB) (u : User) (r : String)
    (fd td : Nat) (doc : Option String)
    (h : apply_leave db u r fd td doc = Except.ok db2) :
    db2.bookings = db.bookings := by
  unfold apply_leave at h
  split at h
  · split at h
    · split at h
      · simp at h
      · rw [← (Except.ok.inj h)]
    · simp at h
  · simp at h

/-- A successful `coordinator_leave_action` leaves the booking table
untouched. -/
theorem coordinator_leave_action_ok_bookings (db db2 : DB) (u : User)
    (lid : Nat) (a rm : String) (t : Nat)
    (h : coordinator_leave_action db u lid a rm t = Except.ok db2) :
    db2.bookings = db.bookings := by
  unfold coordinator_leave_action at h
  split at h
  · split at h
    next => simp at h
    next l heq =>
      split at h
      next => rw [← (Except.ok.inj h)]; rfl
      next =>
        split at h
        next => rw [← (Except.ok.inj h)]; rfl
        next => simp at h
  · simp at h

/-- Appending a booking with both flags false is a flag-monotone
step. -/
theorem flagsMonotone_append (l : List RoomBooking) (nb : RoomBooking)
    (h1 : nb.coordinator_approved = false) (h2 : nb.hod_approved = false) :
    flagsMonotone l (l ++ [nb]) := by
  constructor
  · intro i b b2 hb hb2
    rw [List.getElem?_append] at hb2
    by_cases hi : i < l.length
    · rw [if_pos hi] at hb2
      rw [hb] at hb2
      cases hb2
      exact ⟨id, id⟩
    · rw [List.getElem?_eq_none (Nat.le_of_not_lt hi)] at hb
      cases hb
  · intro i b2 hb hb2
    have hlen : l.length ≤ i := List.getElem?_eq_none_iff.mp hb
    rw [List.getElem?_append_right hlen] at hb2
    cases hj : i - l.length with
    | zero => rw [hj] at hb2; cases hb2; exact ⟨h1, h2⟩
    | succ k => rw [hj] at hb2; simp at hb2

/-- Mapping a pointwise flag-monotone function over the booking table
is a flag-monotone step. -/
theorem flagsMonotone_map (l : List RoomBooking) (f : RoomBooking → RoomBooking)
    (hf : ∀ x ∈ l,
      (x.coordinator_approved = true → (f x).coordinator_approved = true) ∧
      (x.hod_approved = true → (f x).hod_approved = true)) :
    flagsMonotone l (l.map f) := by
  constructor
  · intro i b b2 hb hb2
    rw [List.getElem?_map, hb] at hb2
    simp only [Option.map_some'] at hb2
    cases hb2
    exact hf b (List.getElem?_mem hb)
  · intro i b2 hb hb2
    rw [List.getElem?_map, hb] at hb2
    simp at hb2

/-- The identity step is flag-monotone. -/
theorem flagsMonotone_refl (l : List RoomBooking) : flagsMonotone l l := by
  constructor
  · intro i b b2 hb hb2
    rw [hb] at hb2
    cases hb2
    exact ⟨id, id⟩
  · intro i b2 hb hb2
    rw [hb] at hb2
    cases hb2

/-- With pairwise-distinct booking ids (always true of the real
store, whose id is an auto-increment primary key), any member of the
table with the searched id is the row `find?` returns. -/
theorem find_unique_id (l : List RoomBooking) (bid : Nat) (b x : RoomBooking)
    (hids : l.Pairwise fun p q => p.id ≠ q.id)
    (hfind : l.find? (fun r => r.id == bid) = some b)
    (hx : x ∈ l) (hxid : x.id = bid) : x = b := by
  have hbmem : b ∈ l := List.mem_of_find?_eq_some hfind
  have hbid : b.id = bid := by simpa using List.find?_some hfind
  by_contra hne
  have hsymm : Symmetric fun p q : RoomBooking => p.id ≠ q.id :=
    fun p q hpq h2 => hpq h2.symm
  exact (hids.forall hsymm hx hbmem hne) (hxid.trans hbid.symm)

/-! ### Claims -/

/-- C1: `request_room` fails with Conflict iff some APPROVED booking
for the same room and date overlaps the requested half-open interval
(`start < end2 ∧ end > start2`); pending/rejected bookings never
block, and with no such overlap a valid requester (teacher, or
student with a division) succeeds — in particular a request starting
exactly at an approved booking's end. -/
theorem C1_conflict_iff_approved_overlap (db : DB) (u : User) (rid : Nat)
    (p : String) (d s e : Nat) (hroom : db.rooms.contains rid = true) :
    (request_room db u rid p d s e = Except.error Err.Conflict ↔
      ∃ b ∈ db.bookings, b.room = rid ∧ b.booking_date = d ∧
        b.status = BookingStatus.APPROVED ∧ s < b.end_time ∧ b.start_time < e) ∧
    ((¬ ∃ b ∈ db.bookings, b.room = rid ∧ b.booking_date = d ∧
        b.status = BookingStatus.APPROVED ∧ s < b.end_time ∧ b.start_time < e) →
      (u.role = Role.teacher ∨
        (u.role = Role.student ∧ ∃ dv, u.student_division = some dv)) →
      ∃ db2, request_room db u rid p d s e = Except.ok db2) := by
  constructor
  · rw [← hasClash_iff]
    unfold request_room
    rw [if_pos hroom]
    by_cases hc : hasClash db.bookings rid d s e = true
    · simp [hc]
    · rw [if_neg hc]
      simp only [hc, Bool.false_eq_true, iff_false]
      intro h
      cases hrole : u.role
      · rw [hrole] at h; simp at h
      · rw [hrole] at h; simp at h
      · rw [hrole] at h
        cases hsd : u.student_division <;> rw [hsd] at h <;> simp at h
  · rw [← hasClash_iff]
    intro hnc hrole
    unfold request_room
    rw [if_pos hroom, if_neg hnc]
    rcases hrole with ht | ⟨hs, dv, hdv⟩
    · rw [ht]; exact ⟨_, rfl⟩
    · rw [hs, hdv]; exact ⟨_, rfl⟩

/-- C1 witness: against the concrete store holding an APPROVED
booking of room 1 on day 5 over [600, 660), the Conflict-iff-overlap
equivalence holds for a teacher's request of [630, 690). -/
theorem C1_witness :
    dbClash.rooms.contains 1 = true ∧
    ((request_room dbClash uTeacher 1 "x" 5 630 690 = Except.error Err.Conflict ↔
      ∃ b ∈ dbClash.bookings, b.room = 1 ∧ b.booking_date = 5 ∧
        b.status = BookingStatus.APPROVED ∧ 630 < b.end_time ∧ b.start_time < 690) ∧
    ((¬ ∃ b ∈ dbClash.bookings, b.room = 1 ∧ b.booking_date = 5 ∧
        b.status = BookingStatus.APPROVED ∧ 630 < b.end_time ∧ b.start_time < 690) →
      (uTeacher.role = Role.teacher ∨
        (uTeacher.role = Role.student ∧ ∃ dv, uTeacher.student_division = some dv)) →
      ∃ db2, request_room dbClash uTeacher 1 "x" 5 630 690 = Except.ok db2)) :=
  ⟨by decide, C1_conflict_iff_approved_overlap dbClash uTeacher 1 "x" 5 630 690 (by decide)⟩

/-- C6: every successful `request_room` appends exactly one booking;
a teacher's booking starts PENDING_HOD with no division, a student's
starts PENDING_COORDINATOR with the student's own division; both
approval flags start false. -/
theorem C6_initial_booking_state (db db2 : DB) (u : User) (rid : Nat)
    (p : String) (d s e : Nat)
    (h : request_room db u rid p d s e = Except.ok db2) :
    ∃ nb, db2.bookings = db.bookings ++ [nb] ∧
      nb.coordinator_approved = false ∧ nb.hod_approved = false ∧
      ((u.role = Role.teacher ∧ nb.status = BookingStatus.PENDING_HOD ∧
          nb.division = none) ∨
       (u.role = Role.student ∧ nb.status = BookingStatus.PENDING_COORDINATOR ∧
          nb.division = u.student_division)) :=
  request_room_ok_spec db db2 u rid p d s e h

/-- C6 witness: a concrete teacher request succeeds and satisfies the
initial-state property. -/
theorem C6_witness :
    request_room dbClash uTeacher 1 "x" 5 700 760 =
      Except.ok { dbClash with
        bookings := dbClash.bookings ++
          [{ id := 1, room := 1, requested_by := 10, division := none,
             purpose := "x", booking_date := 5, start_time := 700,
             end_time := 760, status := BookingStatus.PENDING_HOD,
             coordinator_approved := false, hod_approved := false }],
        next_booking_id := 2 } ∧
    ∃ nb, ({ dbClash with
        bookings := dbClash.bookings ++
          [{ id := 1, room := 1, requested_by := 10, division := none,
             purpose := "x", booking_date := 5, start_time := 700,
             end_time := 760, status := BookingStatus.PENDING_HOD,
             coordinator_approved := false, hod_approved := false }],
        next_booking_id := 2 } : DB).bookings = dbClash.bookings ++ [nb] ∧
      nb.coordinator_approved = false ∧ nb.hod_approved = false ∧
      ((uTeacher.role = Role.teacher ∧ nb.status = BookingStatus.PENDING_HOD ∧
          nb.division = none) ∨
       (uTeacher.role = Role.student ∧
          nb.status = BookingStatus.PENDING_COORDINATOR ∧
          nb.division = uTeacher.student_division)) :=
  ⟨rfl, C6_initial_booking_state dbClash _ uTeacher 1 "x" 5 700 760 rfl⟩

/-- C7: `apply_leave` by a student with `to_date < from_date` fails
with ValidationError and persists nothing; with `to_date ≥ from_date`
it succeeds, appending exactly one leave in status PENDING carrying
the student's current division. -/
theorem C7_leave_creation (db : DB) (u : User) (r : String) (fd td : Nat)
    (doc : Option String) (dv : Division)
    (hrole : u.role = Role.student) (hdv : u.student_division = some dv) :
    (td < fd → apply_leave db u r fd td doc = Except.error Err.ValidationError) ∧
    (fd ≤ td → apply_leave db u r fd td doc = Except.ok { db with
        leaves := db.leaves ++
          [{ id := db.next_leave_id, student := u.id, division := dv,
             reason := r, from_date := fd, to_date := td, document := doc,
             status := LeaveStatus.PENDING, coordinator_remark := none,
             decision_at := none }],
        next_leave_id := db.next_leave_id + 1 }) := by
  unfold apply_leave
  rw [hrole, hdv]
  simp only [beq_self_eq_true, if_true]
  constructor
  · intro hlt
    rw [if_pos hlt]
  · intro hle
    rw [if_neg (by omega)]

/-- C7 witness: the student in (MCA,1,A) applying with `to < from`
fails with ValidationError; with `from ≤ to` the leave is created in
PENDING with the student's division. -/
theorem C7_witness :
    uStudentA.role = Role.student ∧ uStudentA.student_division = some divA ∧
    ((10 < 8 → apply_leave dbClash uStudentA "sick" 8 10 none =
        Except.error Err.ValidationError) ∧
     (8 ≤ 10 → apply_leave dbClash uStudentA "sick" 8 10 none =
        Except.ok { dbClash with
          leaves := dbClash.leaves ++
            [{ id := dbClash.next_leave_id, student := uStudentA.id,
               division := divA, reason := "sick", from_date := 8,
               to_date := 10, document := none,
               status := LeaveStatus.PENDING, coordinator_remark := none,
               decision_at := none }],
          next_leave_id := dbClash.next_leave_id + 1 })) :=
  ⟨by decide, by decide,
    C7_leave_creation dbClash uStudentA "sick" 8 10 none divA (by decide) (by decide)⟩

/-- C2 counterexample: the booking in `dbClash` is already APPROVED
(a terminal state), yet `coordinator_action` "approve" succeeds and
moves it back to PENDING_HOD instead of failing with
InvalidTransition and leaving the record unchanged. -/
theorem C2_counterexample :
    bApproved.status = BookingStatus.APPROVED ∧
    coordinator_action dbClash uCoordA 0 "approve" =
      Except.ok { dbClash with bookings := [{ bApproved with
        status := BookingStatus.PENDING_HOD, coordinator_approved := true }] } ∧
    coordinator_action dbClash uCoordA 0 "approve" ≠
      Except.error Err.InvalidTransition ∧
    ({ bApproved with
        status := BookingStatus.PENDING_HOD,
        coordinator_approved := true } : RoomBooking) ≠ bApproved :=
  ⟨rfl, rfl, fun h => Except.noConfusion h, by decide⟩

/-- C2 amended: neither decision endpoint consults the booking's
current status.  From any state, a batch coordinator's approve sets
PENDING_HOD (and `coordinator_approved`), their reject sets REJECTED,
an HOD's approve sets APPROVED (and `hod_approved`), their reject
sets REJECTED; only unknown action strings fail — with InvalidAction
— leaving the store unchanged.  No InvalidTransition error exists. -/
theorem C2_amended_no_state_guard (db : DB) (u1 u2 : User) (bid : Nat)
    (a : String) (b : RoomBooking)
    (hr1 : u1.role = Role.teacher) (hbc : isBatchCoordinator u1 = true)
    (hr2 : u2.role = Role.teacher) (hhod : isHod u2 = true)
    (hb : findBooking db bid = some b) :
    coordinator_action db u1 bid "approve" =
      Except.ok (updateBooking db bid { b with
        status := BookingStatus.PENDING_HOD, coordinator_approved := true }) ∧
    coordinator_action db u1 bid "reject" =
      Except.ok (updateBooking db bid { b with status := BookingStatus.REJECTED }) ∧
    hod_action db u2 bid "approve" =
      Except.ok (updateBooking db bid { b with
        status := BookingStatus.APPROVED, hod_approved := true }) ∧
    hod_action db u2 bid "reject" =
      Except.ok (updateBooking db bid { b with status := BookingStatus.REJECTED }) ∧
    (a ≠ "approve" → a ≠ "reject" →
      coordinator_action db u1 bid a = Except.error Err.InvalidAction ∧
      hod_action db u2 bid a = Except.error Err.InvalidAction) := by
  refine ⟨?_, ?_, ?_, ?_, fun ha1 ha2 => ?_⟩
  · simp [coordinator_action, hr1, hbc, hb]
  · simp [coordinator_action, hr1, hbc, hb]
  · simp [hod_action, hr2, hhod, hb]
  · simp [hod_action, hr2, hhod, hb]
  · have h1 : (a == "approve") = false := by simp [ha1]
    have h2 : (a == "reject") = false := by simp [ha2]
    exact ⟨by simp [coordinator_action, hr1, hbc, hb, h1, h2],
           by simp [hod_action, hr2, hhod, hb, h1, h2]⟩

/-- C2 witness: on the APPROVED booking of `dbClash`, the coordinator
and the MCA HOD can each re-decide it, and the action string "foo"
fails with InvalidAction. -/
theorem C2_witness :
    uCoordA.role = Role.teacher ∧ isBatchCoordinator uCoordA = true ∧
    uHodMCA.role = Role.teacher ∧ isHod uHodMCA = true ∧
    findBooking dbClash 0 = some bApproved ∧
    (coordinator_action dbClash uCoordA 0 "approve" =
      Except.ok (updateBooking dbClash 0 { bApproved with
        status := BookingStatus.PENDING_HOD, coordinator_approved := true }) ∧
    coordinator_action dbClash uCoordA 0 "reject" =
      Except.ok (updateBooking dbClash 0 { bApproved with
        status := BookingStatus.REJECTED }) ∧
    hod_action dbClash uHodMCA 0 "approve" =
      Except.ok (updateBooking dbClash 0 { bApproved with
        status := BookingStatus.APPROVED, hod_approved := true }) ∧
    hod_action dbClash uHodMCA 0 "reject" =
      Except.ok (updateBooking dbClash 0 { bApproved with
        status := BookingStatus.REJECTED }) ∧
    ("foo" ≠ "approve" → "foo" ≠ "reject" →
      coordinator_action dbClash uCoordA 0 "foo" = Except.error Err.InvalidAction ∧
      hod_action dbClash uHodMCA 0 "foo" = Except.error Err.InvalidAction)) :=
  ⟨rfl, rfl, rfl, rfl, rfl,
    C2_amended_no_state_guard dbClash uCoordA uHodMCA 0 "foo" bApproved
      rfl rfl rfl rfl rfl⟩

/-- C3 counterexample: `uCoordA` is scoped to (MCA,1,A) while the
PENDING_COORDINATOR booking belongs to (MCA,1,B); the claim demands
an Authorization failure with no mutation, but the call succeeds and
advances the booking. -/
theorem C3_counterexample :
    (uCoordA.teacher_profile.map fun t =>
      (t.coordinator_course, t.coordinator_semester, t.coordinator_division)) =
      some (some "MCA", some 1, some "A") ∧
    bPendingB.division = some divB ∧
    (some divB.course, some divB.semester, some divB.division) ≠
      (some "MCA", some (1 : Nat), some "A") ∧
    bPendingB.status = BookingStatus.PENDING_COORDINATOR ∧
    coordinator_action dbPendingB uCoordA 0 "approve" =
      Except.ok { dbPendingB with bookings := [{ bPendingB with
        status := BookingStatus.PENDING_HOD, coordinator_approved := true }] } ∧
    coordinator_action dbPendingB uCoordA 0 "approve" ≠
      Except.error Err.Authorization :=
  ⟨rfl, rfl, by decide, rfl, rfl, fun h => Except.noConfusion h⟩

/-- C3 amended: `coordinator_action` authorizes only on
(role = teacher ∧ is_batch_coordinator) and never compares the
coordinator's scope triple with the booking's division, so ANY batch
coordinator may decide any booking; only an actor failing the
role/flag check gets Authorization (and no mutation). -/
theorem C3_amended_no_scope_check (db : DB) (u : User) (bid : Nat)
    (a : String) (b : RoomBooking) :
    (¬ (u.role = Role.teacher ∧ isBatchCoordinator u = true) →
      coordinator_action db u bid a = Except.error Err.Authorization) ∧
    (u.role = Role.teacher → isBatchCoordinator u = true →
      findBooking db bid = some b →
      coordinator_action db u bid "approve" =
        Except.ok (updateBooking db bid { b with
          status := BookingStatus.PENDING_HOD, coordinator_approved := true })) := by
  constructor
  · intro hno
    unfold coordinator_action
    rw [if_neg]
    intro hcontra
    rw [Bool.and_eq_true, beq_iff_eq] at hcontra
    exact hno hcontra
  · intro hr hbc hb
    simp [coordinator_action, hr, hbc, hb]

/-- C3 witness: the (MCA,1,A) coordinator successfully approves the
(MCA,1,B) booking, and the admin user is refused. -/
theorem C3_witness :
    (¬ (uAdmin.role = Role.teacher ∧ isBatchCoordinator uAdmin = true) →
      coordinator_action dbPendingB uAdmin 0 "approve" =
        Except.error Err.Authorization) ∧
    (uCoordA.role = Role.teacher → isBatchCoordinator uCoordA = true →
      findBooking dbPendingB 0 = some bPendingB →
      coordinator_action dbPendingB uCoordA 0 "approve" =
        Except.ok (updateBooking dbPendingB 0 { bPendingB with
          status := BookingStatus.PENDING_HOD, coordinator_approved := true })) :=
  ⟨(C3_amended_no_scope_check dbPendingB uAdmin 0 "approve" bPendingB).1,
   (C3_amended_no_scope_check dbPendingB uCoordA 0 "approve" bPendingB).2⟩

/-- C4 counterexample: the leave in `dbLeaveDecided` is already
APPROVED with `decision_at = 100`, yet a further decide call succeeds
(no InvalidTransition) and overwrites status, remark and decision_at
— so `decision_at` is not set exactly once. -/
theorem C4_counterexample :
    lDecided.status ≠ LeaveStatus.PENDING ∧
    coordinator_leave_action dbLeaveDecided uCoordA 0 "reject" "changed" 200 =
      Except.ok { dbLeaveDecided with leaves := [{ lDecided with
        status := LeaveStatus.REJECTED,
        coordinator_remark := some "changed",
        decision_at := some 200 }] } ∧
    coordinator_leave_action dbLeaveDecided uCoordA 0 "reject" "changed" 200 ≠
      Except.error Err.InvalidTransition ∧
    some (200 : Nat) ≠ lDecided.decision_at :=
  ⟨by decide, rfl, fun h => Except.noConfusion h, by decide⟩

/-- C4 amended: `coordinator_leave_action` never consults the leave's
current status.  From any status — PENDING or already decided —
approve sets APPROVED and reject sets REJECTED, and both overwrite
`coordinator_remark` and `decision_at` with the current call's values;
unknown actions fail with InvalidAction and leave the store
unchanged.  (From PENDING this agrees with the claim; on a decided
leave a further call succeeds instead of failing.) -/
theorem C4_amended_decide_overwrites (db : DB) (u : User) (lid : Nat)
    (a rm : String) (t : Nat) (l : StudentLeave)
    (hr : u.role = Role.teacher) (hbc : isBatchCoordinator u = true)
    (hl : findLeave db lid = some l) :
    coordinator_leave_action db u lid "approve" rm t =
      Except.ok (updateLeave db lid { l with
        status := LeaveStatus.APPROVED,
        coordinator_remark := some rm,
        decision_at := some t }) ∧
    coordinator_leave_action db u lid "reject" rm t =
      Except.ok (updateLeave db lid { l with
        status := LeaveStatus.REJECTED,
        coordinator_remark := some rm,
        decision_at := some t }) ∧
    (a ≠ "approve" → a ≠ "reject" →
      coordinator_leave_action db u lid a rm t =
        Except.error Err.InvalidAction) := by
  refine ⟨?_, ?_, fun ha1 ha2 => ?_⟩
  · simp [coordinator_leave_action, hr, hbc, hl]
  · simp [coordinator_leave_action, hr, hbc, hl]
  · have h1 : (a == "approve") = false := by simp [ha1]
    have h2 : (a == "reject") = false := by simp [ha2]
    simp [coordinator_leave_action, hr, hbc, hl, h1, h2]

/-- C4 witness: re-deciding the already APPROVED leave with "reject"
at time 200 succeeds and overwrites the decision fields; action "foo"
fails with InvalidAction. -/
theorem C4_witness :
    uCoordA.role = Role.teacher ∧ isBatchCoordinator uCoordA = true ∧
    findLeave dbLeaveDecided 0 = some lDecided ∧
    (coordinator_leave_action dbLeaveDecided uCoordA 0 "approve" "again" 200 =
      Except.ok (updateLeave dbLeaveDecided 0 { lDecided with
        status := LeaveStatus.APPROVED, coordinator_remark := some "again",
        decision_at := some 200 }) ∧
    coordinator_leave_action dbLeaveDecided uCoordA 0 "reject" "again" 200 =
      Except.ok (updateLeave dbLeaveDecided 0 { lDecided with
        status := LeaveStatus.REJECTED, coordinator_remark := some "again",
        decision_at := some 200 }) ∧
    ("foo" ≠ "approve" → "foo" ≠ "reject" →
      coordinator_leave_action dbLeaveDecided uCoordA 0 "foo" "again" 200 =
        Except.error Err.InvalidAction)) :=
  ⟨rfl, rfl, rfl,
    C4_amended_decide_overwrites dbLeaveDecided uCoordA 0 "foo" "again" 200
      lDecided rfl rfl rfl⟩

/-- C5 counterexample: the PENDING_HOD booking belongs to division
(MCA,1,A) — course MCA — while `uHodMMS` is HOD of MMS; the claim
demands an Authorization failure with no change, but the approval
succeeds and the booking becomes APPROVED. -/
theorem C5_counterexample :
    bPendingHodA.division = some divA ∧
    (uHodMMS.teacher_profile.map fun t => t.hod_course) = some (some "MMS") ∧
    divA.course ≠ "MMS" ∧
    bPendingHodA.status = BookingStatus.PENDING_HOD ∧
    hod_action dbPendingHodA uHodMMS 0 "approve" =
      Except.ok { dbPendingHodA with bookings := [{ bPendingHodA with
        status := BookingStatus.APPROVED, hod_approved := true }] } ∧
    hod_action dbPendingHodA uHodMMS 0 "approve" ≠
      Except.error Err.Authorization :=
  ⟨rfl, rfl, by decide, rfl, rfl, fun h => Except.noConfusion h⟩

/-- C5 amended: `hod_action` authorizes only on
(role = teacher ∧ is_hod); `hod_course` is never compared with the
booking's division course, so ANY HOD may decide any booking, student-
or teacher-originated alike; only an actor failing the role/flag
check gets Authorization (and no mutation).  The course filter exists
solely in the pending-list view (`hod_requests`). -/
theorem C5_amended_no_course_check (db : DB) (u : User) (bid : Nat)
    (a : String) (b : RoomBooking) :
    (¬ (u.role = Role.teacher ∧ isHod u = true) →
      hod_action db u bid a = Except.error Err.Authorization) ∧
    (u.role = Role.teacher → isHod u = true → findBooking db bid = some b →
      hod_action db u bid "approve" =
        Except.ok (updateBooking db bid { b with
          status := BookingStatus.APPROVED, hod_approved := true })) := by
  constructor
  · intro hno
    unfold hod_action
    rw [if_neg]
    intro hcontra
    rw [Bool.and_eq_true, beq_iff_eq] at hcontra
    exact hno hcontra
  · intro hr hhod hb
    simp [hod_action, hr, hhod, hb]

/-- C5 witness: the MMS HOD successfully approves the MCA student
booking, and the admin user is refused. -/
theorem C5_witness :
    (¬ (uAdmin.role = Role.teacher ∧ isHod uAdmin = true) →
      hod_action dbPendingHodA uAdmin 0 "approve" =
        Except.error Err.Authorization) ∧
    (uHodMMS.role = Role.teacher → isHod uHodMMS = true →
      findBooking dbPendingHodA 0 = some bPendingHodA →
      hod_action dbPendingHodA uHodMMS 0 "approve" =
        Except.ok (updateBooking dbPendingHodA 0 { bPendingHodA with
          status := BookingStatus.APPROVED, hod_approved := true })) :=
  ⟨(C5_amended_no_course_check dbPendingHodA uAdmin 0 "approve" bPendingHodA).1,
   (C5_amended_no_course_check dbPendingHodA uHodMMS 0 "approve" bPendingHodA).2⟩

/-- C8 counterexample: the admin's role is neither student nor
teacher, the requested slot [630, 690) clashes with the APPROVED
booking [600, 660) of room 1, and `request_room` answers Conflict —
not Authorization — because the clash check runs first. -/
theorem C8_counterexample :
    uAdmin.role ≠ Role.student ∧ uAdmin.role ≠ Role.teacher ∧
    hasClash dbClash.bookings 1 5 630 690 = true ∧
    request_room dbClash uAdmin 1 "x" 5 630 690 = Except.error Err.Conflict ∧
    request_room dbClash uAdmin 1 "x" 5 630 690 ≠ Except.error Err.Authorization :=
  ⟨by decide, by decide, by decide, rfl, by
    intro h
    have h2 : Err.Conflict = Err.Authorization := Except.error.inj h
    exact absurd h2 (by decide)⟩

/-- C8 amended: in `request_room` the clash check runs before the
role check.  An actor whose role is neither student nor teacher gets
Conflict whenever the requested slot clashes with an APPROVED
booking, and Authorization only when it does not; in both cases the
operation fails, so no state is mutated. -/
theorem C8_amended_clash_checked_first (db : DB) (u : User) (rid : Nat)
    (p : String) (d s e : Nat) (hrole : u.role = Role.admin)
    (hroom : db.rooms.contains rid = true) :
    (hasClash db.bookings rid d s e = true →
      request_room db u rid p d s e = Except.error Err.Conflict) ∧
    (hasClash db.bookings rid d s e = false →
      request_room db u rid p d s e = Except.error Err.Authorization) := by
  have hmem : rid ∈ db.rooms := by simpa using hroom
  constructor
  · intro hc
    simp [request_room, hmem, hc]
  · intro hc
    simp [request_room, hmem, hc, hrole]

/-- C8 amended witness: the admin requesting the clashing slot
[630, 690) of room 1 gets Conflict; requesting the clash-free slot
[700, 760) gets Authorization. -/
theorem C8_witness :
    hasClash dbClash.bookings 1 5 630 690 = true ∧
    hasClash dbClash.bookings 1 5 700 760 = false ∧
    request_room dbClash uAdmin 1 "x" 5 630 690 = Except.error Err.Conflict ∧
    request_room dbClash uAdmin 1 "x" 5 700 760 = Except.error Err.Authorization :=
  ⟨by decide, by decide,
    (C8_amended_clash_checked_first dbClash uAdmin 1 "x" 5 630 690
      rfl (by decide)).1 (by decide),
    (C8_amended_clash_checked_first dbClash uAdmin 1 "x" 5 700 760
      rfl (by decide)).2 (by decide)⟩

/-- C9: approval performs no clash re-check.  Starting from the empty
store, two teacher requests for room 1 on day 5 with overlapping
intervals [600,660) and [630,690) both succeed (no APPROVED booking
exists yet at either creation), and the HOD can approve both —
reaching a state with two APPROVED bookings for the same room and
date whose half-open intervals overlap. -/
theorem C9_double_booking_reachable :
    ∃ db1 db2 db3 db4 : DB,
      hasClash c9Db0.bookings 1 5 600 660 = false ∧
      request_room c9Db0 uTeacher 1 "a" 5 600 660 = Except.ok db1 ∧
      hasClash db1.bookings 1 5 630 690 = false ∧
      request_room db1 uTeacher 1 "b" 5 630 690 = Except.ok db2 ∧
      hod_action db2 uHodMCA 0 "approve" = Except.ok db3 ∧
      hod_action db3 uHodMCA 1 "approve" = Except.ok db4 ∧
      ∃ b1 ∈ db4.bookings, ∃ b2 ∈ db4.bookings,
        b1.id ≠ b2.id ∧ b1.room = b2.room ∧ b1.booking_date = b2.booking_date ∧
        b1.status = BookingStatus.APPROVED ∧ b2.status = BookingStatus.APPROVED ∧
        b1.start_time < b2.end_time ∧ b2.start_time < b1.end_time := by
  refine ⟨_, _, _, _, by decide, rfl, by decide, rfl, rfl, rfl, ?_⟩
  decide

/-- C10: the audit flags are monotone.  Across any single operation
that touches the booking table — creation, coordinator decision, HOD
decision, and (vacuously) the two leave operations — a booking row
never has `coordinator_approved` or `hod_approved` reset from true
to false, and a row new in the step has both flags false.  (Distinct
primary keys are assumed, as the auto-increment store guarantees.) -/
theorem C10_approval_flags_monotone (db db2 : DB) (u : User) (rid : Nat)
    (p : String) (d s e bid lid fd td t : Nat) (a rm : String)
    (doc : Option String)
    (hids : db.bookings.Pairwise fun x y => x.id ≠ y.id)
    (h : request_room db u rid p d s e = Except.ok db2 ∨
         coordinator_action db u bid a = Except.ok db2 ∨
         hod_action db u bid a = Except.ok db2 ∨
         apply_leave db u rm fd td doc = Except.ok db2 ∨
         coordinator_leave_action db u lid a rm t = Except.ok db2) :
    flagsMonotone db.bookings db2.bookings := by
  rcases h with h | h | h | h | h
  · obtain ⟨nb, hb, h1, h2, _⟩ := request_room_ok_spec db db2 u rid p d s e h
    rw [hb]
    exact flagsMonotone_append db.bookings nb h1 h2
  · obtain ⟨b, hfb, hcase⟩ := coordinator_action_ok_shape db db2 u bid a h
    rcases hcase with rfl | rfl <;>
    · simp only [updateBooking]
      apply flagsMonotone_map
      intro x hx
      by_cases hxid : (x.id == bid) = true
      · have hxb : x = b :=
          find_unique_id db.bookings bid b x hids hfb hx (by simpa using hxid)
        subst hxb
        simp [hxid]
      · simp [hxid]
  · obtain ⟨b, hfb, hcase⟩ := hod_action_ok_shape db db2 u bid a h
    rcases hcase with rfl | rfl <;>
    · simp only [updateBooking]
      apply flagsMonotone_map
      intro x hx
      by_cases hxid : (x.id == bid) = true
      · have hxb : x = b :=
          find_unique_id db.bookings bid b x hids hfb hx (by simpa using hxid)
        subst hxb
        simp [hxid]
      · simp [hxid]
  · rw [apply_leave_ok_bookings db db2 u rm fd td doc h]
    exact flagsMonotone_refl db.bookings
  · rw [coordinator_leave_action_ok_bookings db db2 u lid a rm t h]
    exact flagsMonotone_refl db.bookings

/-- C10 witness: approving the pending (MCA,1,B) booking — whose row
table has pairwise-distinct ids — is a flag-monotone step. -/
theorem C10_witness :
    (dbPendingB.bookings.Pairwise fun x y => x.id ≠ y.id) ∧
    (request_room dbPendingB uCoordA 1 "p" 5 600 660 =
        Except.ok (updateBooking dbPendingB 0 { bPendingB with
          status := BookingStatus.PENDING_HOD, coordinator_approved := true }) ∨
     coordinator_action dbPendingB uCoordA 0 "approve" =
        Except.ok (updateBooking dbPendingB 0 { bPendingB with
          status := BookingStatus.PENDING_HOD, coordinator_approved := true }) ∨
     hod_action dbPendingB uCoordA 0 "approve" =
        Except.ok (updateBooking dbPendingB 0 { bPendingB with
          status := BookingStatus.PENDING_HOD, coordinator_approved := true }) ∨
     apply_leave dbPendingB uCoordA "p" 8 10 none =
        Except.ok (updateBooking dbPendingB 0 { bPendingB with
          status := BookingStatus.PENDING_HOD, coordinator_approved := true }) ∨
     coordinator_leave_action dbPendingB uCoordA 0 "approve" "p" 7 =
        Except.ok (updateBooking dbPendingB 0 { bPendingB with
          status := BookingStatus.PENDING_HOD, coordinator_approved := true })) ∧
    flagsMonotone dbPendingB.bookings
      (updateBooking dbPendingB 0 { bPendingB with
        status := BookingStatus.PENDING_HOD,
        coordinator_approved := true }).bookings :=
  ⟨by simp [dbPendingB], Or.inr (Or.inl rfl),
    C10_approval_flags_monotone dbPendingB
      (updateBooking dbPendingB 0 { bPendingB with
        status := BookingStatus.PENDING_HOD, coordinator_approved := true })
      uCoordA 1 "p" 5 600 660 0 0 8 10 7 "approve" "p" none
      (by simp [dbPendingB]) (Or.inr (Or.inl rfl))⟩

end Campus
